import Mathlib

/-!
Verification of the identity-to-TLS-credential resolver
(`src/iroh/src/tls/resolver.rs`).

The resolver source is embedded shallowly.  Its collaborators — the
`iroh_base::SecretKey` type, the certificate materializer
(`super::certificate`), and the rustls/ring cryptographic provider — live
outside the verified source tree; they are modelled from the specification's
boundary contracts (§3, §4.1, §6), symbolically: byte strings are `List Nat`,
and each cryptographic encoding is a distinct tagged wrapping of the
underlying Ed25519 seed, so that equality of modelled values coincides with
equality of the identities they carry.
-/

namespace IrohTls

/-- Byte strings (`Vec<u8>` / `&[u8]`), modelled as lists of naturals. -/
abbrev Bytes := List Nat

/-- Modelled from the spec: `SecretKey` (§3) is an opaque fixed-size private
scalar for an Ed25519-class scheme; validity is scheme-defined (32 bytes).
We model the key as its raw seed bytes so that structurally invalid keys
(wrong length) are representable, as §3 and §8 require. -/
def isValidSecretKey (sk : Bytes) : Bool :=
  sk.length == 32 && sk.all (fun b => b < 256)

/-- Tag for a derived Ed25519 public (verifying) key. -/
def pubkeyTag : Nat := 100

/-- Tag for a PKCS#8 PEM document holding a private key. -/
def pemTag : Nat := 101

/-- Tag for a PKCS#8 DER private-key blob. -/
def pkcs8Tag : Nat := 102

/-- Tag for an X.509 certificate DER blob. -/
def x509Tag : Nat := 103

/-- Tag for the certificate materializer's private signing key blob. -/
def certKeyTag : Nat := 104

/-- Modelled from the spec: deterministic Ed25519-class public-key derivation
supplied by the cryptographic provider (§3 NodeIdentifier, §6).  The spec
fixes only that it is deterministic in the seed; we model the verifying key
symbolically as the tagged seed, so two public keys are equal exactly when
they were derived from the same secret. -/
def derivePublicKey (seed : Bytes) : Bytes :=
  pubkeyTag :: seed

/-- Modelled from the spec: `NodeIdentifier` (§3), the public counterpart of a
`SecretKey`, derived deterministically from it. -/
def nodeIdentifier (sk : Bytes) : Bytes :=
  derivePublicKey sk

/-- Modelled from the spec: `ed25519_dalek`'s `to_pkcs8_pem` export used at
`resolver.rs:43-45`.  It succeeds for every syntactically valid secret key
(§4.2: "it must succeed for any syntactically valid SecretKey") and an invalid
key fails fast here, at its first use (§3). -/
def to_pkcs8_pem (sk : Bytes) : Option Bytes :=
  if isValidSecretKey sk then some (pemTag :: sk) else none

/-- Modelled from the spec: `PrivatePkcs8KeyDer::from_pem_slice`
(`resolver.rs:48-50`), parsing a PEM document back into a PKCS#8 DER key. -/
def from_pem_slice (pem : Bytes) : Option Bytes :=
  match pem with
  | t :: rest => if t = pemTag then some (pkcs8Tag :: rest) else none
  | [] => none

/-- The two-variant authentication mode (`crate::tls::Authentication`, a repo
type outside the verified tree).  Modelled from the spec: a closed choice
with exactly the variants `CertificateBased` (X509) and `RawKeyBased`
(RawPublicKey) (§3). -/
inductive Authentication where
  | X509
  | RawPublicKey
deriving DecidableEq, Repr

/-- Signature-algorithm family of a rustls signing key. -/
inductive KeyScheme where
  | ecdsa
  | eddsa
deriving DecidableEq, Repr

/-- Modelled from the spec: the rustls signing-key object produced by the
cryptographic provider (§6).  We track its scheme family and the public key
it exposes through `public_key()` (`None` when no public key is
recoverable). -/
structure SigningKey where
  scheme : KeyScheme
  pub : Option Bytes
deriving DecidableEq, Repr

/-- `SigningKey::public_key()` as called at `resolver.rs:54-55`. -/
def SigningKey.public_key (k : SigningKey) : Option Bytes :=
  k.pub

/-- Modelled from the spec: rustls errors surfaced by the provider;
`InconsistentKeys` is the §7 invariant-violation error, `General` covers the
provider rejecting a key type or failing to decode a key
(`TlsConfigurationError` in §7). -/
inductive RustlsError where
  | InconsistentKeys
  | General (msg : String)
deriving DecidableEq, Repr

/-- Modelled from the spec: the certificate materializer's failure
(`certificate::GenError`, §4.1 `CertificateGenerationFailed`). -/
inductive GenError where
  | generation
deriving DecidableEq, Repr

/-- `CreateConfigError` (`resolver.rs:18-25`): errors for generating TLS
configs, one variant per `#[from]` source. -/
inductive CreateConfigError where
  | CertError (e : GenError)
  | Rustls (e : RustlsError)
deriving DecidableEq, Repr

/-- Outcome of running a fallible Rust computation: a returned `Ok`, a
returned `Err`, or a process abort through an `expect`-style panic (with the
`expect` message). -/
inductive Outcome (α : Type) where
  | ok (a : α)
  | err (e : CreateConfigError)
  | panic (msg : String)
deriving DecidableEq, Repr

/-- Modelled from the spec: `rustls::crypto::ring::sign::any_eddsa_type`
(`resolver.rs:51-52`): turns a PKCS#8 DER blob into an EdDSA-class signer
whose public key is the one derived from the wrapped seed; the provider
rejects anything that is not a valid EdDSA key (§6). -/
def any_eddsa_type (der : Bytes) : Except RustlsError SigningKey :=
  match der with
  | t :: seed =>
    if t = pkcs8Tag && isValidSecretKey seed then
      Except.ok { scheme := KeyScheme.eddsa, pub := some (derivePublicKey seed) }
    else
      Except.error (RustlsError.General "invalid eddsa key")
  | [] => Except.error (RustlsError.General "invalid eddsa key")

/-- Modelled from the spec: `rustls::crypto::ring::sign::any_ecdsa_type`
(`resolver.rs:37`): turns the materializer's private signing key into an
elliptic-curve-class signer for the same asserted identity (§4.1, §6). -/
def any_ecdsa_type (der : Bytes) : Except RustlsError SigningKey :=
  match der with
  | t :: seed =>
    if t = certKeyTag && isValidSecretKey seed then
      Except.ok { scheme := KeyScheme.ecdsa, pub := some (derivePublicKey seed) }
    else
      Except.error (RustlsError.General "invalid ecdsa key")
  | [] => Except.error (RustlsError.General "invalid ecdsa key")

/-- Build an X.509 certificate DER blob embedding a subject public key and
signature bytes: tag, signature length, signature, then the key. -/
def mkCertDer (pk sig : Bytes) : Bytes :=
  x509Tag :: sig.length :: (sig ++ pk)

/-- Read the subject public key embedded in an X.509 certificate DER blob. -/
def certSubjectPublicKey (der : Bytes) : Option Bytes :=
  match der with
  | t :: n :: rest =>
    if t = x509Tag && n ≤ rest.length then some (rest.drop n) else none
  | _ => none

/-- Modelled from the spec: the Certificate Materializer
(`certificate::generate`, `resolver.rs:34`; §4.1): from a secret key it
produces a self-signed certificate whose subject public key equals the
NodeIdentifier derived from that key, together with a private signing key for
the same identity.  Cryptographic randomness used for signing (the `rand`
argument) may vary the signature bytes but never the asserted public key;
any encoding or signing failure is `GenError` (§4.1). -/
def certificate_generate (rand sk : Bytes) : Except GenError (Bytes × Bytes) :=
  if isValidSecretKey sk then
    Except.ok (mkCertDer (derivePublicKey sk) rand, certKeyTag :: sk)
  else
    Except.error GenError.generation

/-- `rustls::sign::CertifiedKey`: an end-entity certificate chain together
with the matching private signing key. -/
structure CertifiedKey where
  cert : List Bytes
  key : SigningKey
deriving DecidableEq, Repr

/-- `CertifiedKey::new` (`resolver.rs:35, 62`). -/
def CertifiedKey.new (cert : List Bytes) (key : SigningKey) : CertifiedKey :=
  { cert := cert, key := key }

/-- `AlwaysResolvesCert` (`resolver.rs:11-14`): the one precomputed
credential plus the authentication mode it was built with. -/
structure AlwaysResolvesCert where
  key : CertifiedKey
  auth : Authentication
deriving DecidableEq, Repr

/-- Lines 54-59 of `resolver.rs` in isolation: recover the signer's public
key; the `Result` built by `ok_or(rustls::Error::InconsistentKeys(..))` is
immediately unwrapped by `.expect("cannot load public key")`, so the
`None` case aborts instead of surfacing the error. -/
def extract_public_key (k : SigningKey) : Outcome Bytes :=
  match k.public_key with
  | some p => Outcome.ok p
  | none => Outcome.panic "cannot load public key"

/-- The `match auth` block of `AlwaysResolvesCert::new` (`resolver.rs:32-69`)
computing the `CertifiedKey`; `rand` is the ambient signing randomness
threaded to the certificate materializer. -/
def newCertifiedKey (auth : Authentication) (secret_key rand : Bytes) :
    Outcome CertifiedKey :=
  match auth with
  | Authentication.X509 =>
    match certificate_generate rand secret_key with
    | Except.error e => Outcome.err (CreateConfigError.CertError e)
    | Except.ok (cert, key) =>
      match any_ecdsa_type key with
      | Except.error e => Outcome.err (CreateConfigError.Rustls e)
      | Except.ok signer => Outcome.ok (CertifiedKey.new [cert] signer)
  | Authentication.RawPublicKey =>
    match to_pkcs8_pem secret_key with
    | none => Outcome.panic "key is valid"
    | some client_private_key_pem =>
      match from_pem_slice client_private_key_pem with
      | none => Outcome.panic "cannot open private key file"
      | some client_private_key_der =>
        match any_eddsa_type client_private_key_der with
        | Except.error e => Outcome.err (CreateConfigError.Rustls e)
        | Except.ok client_private_key =>
          match extract_public_key client_private_key with
          | Outcome.err e => Outcome.err e
          | Outcome.panic m => Outcome.panic m
          | Outcome.ok client_public_key =>
            Outcome.ok
              (CertifiedKey.new [client_public_key] client_private_key)

/-- `AlwaysResolvesCert::new` (`resolver.rs:28-71`). -/
def new (auth : Authentication) (secret_key rand : Bytes) :
    Outcome AlwaysResolvesCert :=
  match newCertifiedKey auth secret_key rand with
  | Outcome.ok key => Outcome.ok { key := key, auth := auth }
  | Outcome.err e => Outcome.err e
  | Outcome.panic m => Outcome.panic m

/-- State-passing form of `new`: the caller's secret-key buffer is threaded
through the call and handed back as the callee leaves it.  The source takes
the key by shared reference and only ever reads it (`resolver.rs:30, 34,
43-45`), so the buffer passes through every step unchanged. -/
def new_st (auth : Authentication) (secret_key rand : Bytes) :
    Bytes × Outcome AlwaysResolvesCert :=
  (secret_key, new auth secret_key rand)

/-- Hint lists and hello data the TLS layer passes at query time. -/
abbrev SignatureScheme := Nat

/-- Modelled from the spec: the client-hello parameters the server-side
resolver receives (§4.3), including any server-name indication. -/
structure ClientHello where
  server_name : Option Bytes
  sigschemes : List SignatureScheme
deriving DecidableEq, Repr

/-- `ResolvesClientCert::resolve` (`resolver.rs:75-81`). -/
def resolve_client (r : AlwaysResolvesCert)
    (root_hint_subjects : List Bytes) (sigschemes : List SignatureScheme) :
    Option CertifiedKey :=
  some r.key

/-- `ResolvesClientCert::only_raw_public_keys` (`resolver.rs:83-85`). -/
def only_raw_public_keys_client (r : AlwaysResolvesCert) : Bool :=
  match r.auth with
  | Authentication.RawPublicKey => true
  | _ => false

/-- `ResolvesClientCert::has_certs` (`resolver.rs:87-89`). -/
def has_certs (r : AlwaysResolvesCert) : Bool :=
  true

/-- `ResolvesServerCert::resolve` (`resolver.rs:93-98`). -/
def resolve_server (r : AlwaysResolvesCert) (client_hello : ClientHello) :
    Option CertifiedKey :=
  some r.key

/-- `ResolvesServerCert::only_raw_public_keys` (`resolver.rs:100-102`). -/
def only_raw_public_keys_server (r : AlwaysResolvesCert) : Bool :=
  match r.auth with
  | Authentication.RawPublicKey => true
  | _ => false

/-- The public key embedded in one chain entry, read according to the mode's
credential shape (§3): an X.509 entry carries its subject public key, a
raw-key entry is the public key itself. -/
def entryEmbeddedPublicKey (auth : Authentication) (der : Bytes) :
    Option Bytes :=
  match auth with
  | Authentication.X509 => certSubjectPublicKey der
  | Authentication.RawPublicKey => some der

/-- Whether an outcome is a returned `Err` (as opposed to `Ok` or a panic). -/
def Outcome.isReturnedErr {α : Type} : Outcome α → Bool
  | Outcome.err _ => true
  | _ => false

/-- A fixed valid 32-byte secret key used for concrete witnesses. -/
def sampleKey : Bytes := List.replicate 32 7

/-- A second fixed valid secret key. -/
def sampleKey2 : Bytes := 1 :: List.replicate 31 0

/-- The certified key `new` stores for a given mode, valid secret key and
signing randomness (characterization of `newCertifiedKey`'s success value). -/
def resolvedKey (auth : Authentication) (sk rand : Bytes) : CertifiedKey :=
  match auth with
  | Authentication.X509 =>
    CertifiedKey.new [mkCertDer (derivePublicKey sk) rand]
      { scheme := KeyScheme.ecdsa, pub := some (derivePublicKey sk) }
  | Authentication.RawPublicKey =>
    CertifiedKey.new [derivePublicKey sk]
      { scheme := KeyScheme.eddsa, pub := some (derivePublicKey sk) }

theorem certSubjectPublicKey_mkCertDer (pk sig : Bytes) :
    certSubjectPublicKey (mkCertDer pk sig) = some pk := by
  simp [certSubjectPublicKey, mkCertDer, List.length_append]

theorem new_ok_elim (auth : Authentication) (sk rand : Bytes)
    (r : AlwaysResolvesCert) (h : new auth sk rand = Outcome.ok r) :
    isValidSecretKey sk = true ∧
      r = { key := resolvedKey auth sk rand, auth := auth } := by
  cases auth <;> cases hv : isValidSecretKey sk <;>
    simp [new, newCertifiedKey, certificate_generate, to_pkcs8_pem,
      from_pem_slice, any_ecdsa_type, any_eddsa_type, extract_public_key,
      SigningKey.public_key, hv, resolvedKey, CertifiedKey.new] at h ⊢ <;>
    exact h.symm

theorem new_panic_of_invalid (sk rand : Bytes)
    (h : isValidSecretKey sk = false) :
    new Authentication.RawPublicKey sk rand = Outcome.panic "key is valid" := by
  simp [new, newCertifiedKey, to_pkcs8_pem, h]

/-- The resolver built from `sampleKey` in raw-key mode. -/
def rawSampleResolver : AlwaysResolvesCert :=
  { key := resolvedKey Authentication.RawPublicKey sampleKey [],
    auth := Authentication.RawPublicKey }

/-- The resolver built from `sampleKey2` in raw-key mode. -/
def rawSample2Resolver : AlwaysResolvesCert :=
  { key := resolvedKey Authentication.RawPublicKey sampleKey2 [],
    auth := Authentication.RawPublicKey }

/-- The resolver built from `sampleKey` in certificate mode, for a given
signing randomness. -/
def x509SampleResolver (rand : Bytes) : AlwaysResolvesCert :=
  { key := resolvedKey Authentication.X509 sampleKey rand,
    auth := Authentication.X509 }

/-- C1: for every mode and secret key for which construction succeeds, the
returned resolver's stored mode equals the input mode, and its credential's
chain has exactly one entry whose embedded public key matches the signer's
public key. -/
theorem c1_new_postcondition (auth : Authentication) (sk rand : Bytes)
    (r : AlwaysResolvesCert) (h : new auth sk rand = Outcome.ok r) :
    r.auth = auth ∧
      ∃ e pk, r.key.cert = [e] ∧
        entryEmbeddedPublicKey auth e = some pk ∧
        r.key.key.public_key = some pk := by
  obtain ⟨hv, rfl⟩ := new_ok_elim auth sk rand r h
  cases auth
  · exact ⟨rfl, mkCertDer (derivePublicKey sk) rand, derivePublicKey sk, rfl,
      certSubjectPublicKey_mkCertDer _ _, rfl⟩
  · exact ⟨rfl, derivePublicKey sk, derivePublicKey sk, rfl, rfl, rfl⟩

/-- C1 witness: the postcondition at a concrete valid key in raw-key mode. -/
theorem c1_new_postcondition_witness :
    new Authentication.RawPublicKey sampleKey [] = Outcome.ok rawSampleResolver ∧
      (rawSampleResolver.auth = Authentication.RawPublicKey ∧
        ∃ e pk, rawSampleResolver.key.cert = [e] ∧
          entryEmbeddedPublicKey Authentication.RawPublicKey e = some pk ∧
          rawSampleResolver.key.key.public_key = some pk) :=
  ⟨rfl, c1_new_postcondition Authentication.RawPublicKey sampleKey []
    rawSampleResolver rfl⟩

/-- C2: in raw-key mode, the credential's sole chain entry is itself the raw
public key exposed by the signer, and it equals the NodeIdentifier derived
from the secret key: the PKCS#8 PEM export/re-parse round-trip preserves the
key's identity. -/
theorem c2_raw_identity (sk rand : Bytes) (r : AlwaysResolvesCert)
    (h : new Authentication.RawPublicKey sk rand = Outcome.ok r) :
    ∃ e, r.key.cert = [e] ∧ r.key.key.public_key = some e ∧
      e = nodeIdentifier sk := by
  obtain ⟨hv, rfl⟩ := new_ok_elim _ sk rand r h
  exact ⟨derivePublicKey sk, rfl, rfl, rfl⟩

/-- C2 witness: the identity round-trip at a concrete valid key. -/
theorem c2_raw_identity_witness :
    new Authentication.RawPublicKey sampleKey2 [] = Outcome.ok rawSample2Resolver ∧
      ∃ e, rawSample2Resolver.key.cert = [e] ∧
        rawSample2Resolver.key.key.public_key = some e ∧
        e = nodeIdentifier sampleKey2 :=
  ⟨rfl, c2_raw_identity sampleKey2 [] rawSample2Resolver rfl⟩

/-- C3: for every successfully constructed resolver, the client-side and
server-side resolve queries return `some` of the single stored credential
for arbitrary hint lists and hello parameters; neither has a `none` case. -/
theorem c3_resolve_total (auth : Authentication) (sk rand : Bytes)
    (r : AlwaysResolvesCert) (hints : List Bytes)
    (sigs : List SignatureScheme) (hello : ClientHello)
    (h : new auth sk rand = Outcome.ok r) :
    resolve_client r hints sigs = some r.key ∧
      resolve_server r hello = some r.key :=
  ⟨rfl, rfl⟩

/-- C3 witness: both query surfaces at a concrete constructed resolver and
concrete non-empty hints. -/
theorem c3_resolve_total_witness :
    new Authentication.X509 sampleKey [6] = Outcome.ok (x509SampleResolver [6]) ∧
      (resolve_client (x509SampleResolver [6]) [[1]] [2] =
          some (x509SampleResolver [6]).key ∧
        resolve_server (x509SampleResolver [6])
            { server_name := some [3], sigschemes := [4] } =
          some (x509SampleResolver [6]).key) :=
  ⟨rfl, c3_resolve_total Authentication.X509 sampleKey [6] (x509SampleResolver [6])
    [[1]] [2] { server_name := some [3], sigschemes := [4] } rfl⟩

/-- C4: for every constructed resolver, the raw-public-keys-only capability
answers true exactly when the construction mode was raw-key, and the answer
agrees between the client-role and server-role interfaces. -/
theorem c4_capability (auth : Authentication) (sk rand : Bytes)
    (r : AlwaysResolvesCert) (h : new auth sk rand = Outcome.ok r) :
    (only_raw_public_keys_client r = true ↔ auth = Authentication.RawPublicKey) ∧
      only_raw_public_keys_client r = only_raw_public_keys_server r := by
  obtain ⟨hv, rfl⟩ := new_ok_elim auth sk rand r h
  cases auth <;>
    simp [only_raw_public_keys_client, only_raw_public_keys_server]

/-- C4 witness: the capability equivalence at a concrete raw-key resolver. -/
theorem c4_capability_witness :
    new Authentication.RawPublicKey sampleKey [] = Outcome.ok rawSampleResolver ∧
      ((only_raw_public_keys_client rawSampleResolver = true ↔
          Authentication.RawPublicKey = Authentication.RawPublicKey) ∧
        only_raw_public_keys_client rawSampleResolver =
          only_raw_public_keys_server rawSampleResolver) :=
  ⟨rfl, c4_capability Authentication.RawPublicKey sampleKey [] rawSampleResolver rfl⟩

/-- C5 counterexample: when the signer exposes no public key, the extraction
step of `new` (`resolver.rs:54-59`) aborts through the expect panic
"cannot load public key"; it does not return the `InconsistentKeys` error,
contrary to the claim. -/
theorem c5_counterexample :
    extract_public_key { scheme := KeyScheme.eddsa, pub := none } =
        Outcome.panic "cannot load public key" ∧
      (extract_public_key { scheme := KeyScheme.eddsa, pub := none }
        ).isReturnedErr = false :=
  ⟨rfl, rfl⟩

/-- C5 amended: if the signer derived from the secret key yields no
recoverable public key, the construction step builds the `InconsistentKeys`
error but immediately unwraps it with `expect`, so construction aborts by
panicking with "cannot load public key" instead of returning the error. -/
theorem c5_no_pubkey_panics (k : SigningKey) (h : k.public_key = none) :
    extract_public_key k = Outcome.panic "cannot load public key" := by
  simp [extract_public_key, h]

/-- C5 witness: the panic at a concrete signer without a public key. -/
theorem c5_no_pubkey_panics_witness :
    SigningKey.public_key { scheme := KeyScheme.eddsa, pub := none } = none ∧
      extract_public_key { scheme := KeyScheme.eddsa, pub := none } =
        Outcome.panic "cannot load public key" :=
  ⟨rfl, c5_no_pubkey_panics { scheme := KeyScheme.eddsa, pub := none } rfl⟩

/-- C6 counterexample: a structurally invalid (wrong-length) secret key makes
the raw-key construction path abort through the expect panic "key is valid";
it does not return a `TlsConfigurationError` (`CreateConfigError::Rustls`),
contrary to the claim. -/
theorem c6_counterexample :
    new Authentication.RawPublicKey [1, 2, 3] [] =
        Outcome.panic "key is valid" ∧
      (new Authentication.RawPublicKey [1, 2, 3] []).isReturnedErr = false :=
  ⟨rfl, rfl⟩

/-- C6 amended: feeding the raw-key construction path a structurally invalid
secret key makes construction fail fast by aborting with the expect panic
"key is valid" (so no credential, mismatched or otherwise, is ever
produced), rather than by returning `TlsConfigurationError`. -/
theorem c6_invalid_key_panics (sk rand : Bytes)
    (h : isValidSecretKey sk = false) :
    new Authentication.RawPublicKey sk rand = Outcome.panic "key is valid" ∧
      (new Authentication.RawPublicKey sk rand).isReturnedErr = false := by
  rw [new_panic_of_invalid sk rand h]
  exact ⟨rfl, rfl⟩

/-- C6 witness: the panic at a concrete wrong-length key. -/
theorem c6_invalid_key_panics_witness :
    isValidSecretKey [1, 2, 3] = false ∧
      (new Authentication.RawPublicKey [1, 2, 3] [42] =
          Outcome.panic "key is valid" ∧
        (new Authentication.RawPublicKey [1, 2, 3] [42]).isReturnedErr = false) :=
  ⟨rfl, c6_invalid_key_panics [1, 2, 3] [42] rfl⟩

/-- C7: two successful constructions from the same mode and secret key agree
on all public-key material — the signer's public key and the public key
embedded in every chain entry — even when the signing randomness, and hence
the certificate's signature bytes, differ. -/
theorem c7_pubkey_material_deterministic (auth : Authentication)
    (sk r1 r2 : Bytes) (o1 o2 : AlwaysResolvesCert)
    (h1 : new auth sk r1 = Outcome.ok o1)
    (h2 : new auth sk r2 = Outcome.ok o2) :
    o1.key.key.public_key = o2.key.key.public_key ∧
      o1.key.cert.map (entryEmbeddedPublicKey auth) =
        o2.key.cert.map (entryEmbeddedPublicKey auth) := by
  obtain ⟨-, rfl⟩ := new_ok_elim auth sk r1 o1 h1
  obtain ⟨-, rfl⟩ := new_ok_elim auth sk r2 o2 h2
  cases auth
  · refine ⟨rfl, ?_⟩
    simp [resolvedKey, CertifiedKey.new, entryEmbeddedPublicKey,
      certSubjectPublicKey_mkCertDer]
  · exact ⟨rfl, rfl⟩

/-- C7 witness: identical public-key material across two certificate-mode
constructions with different signing randomness. -/
theorem c7_pubkey_material_deterministic_witness :
    new Authentication.X509 sampleKey [5] = Outcome.ok (x509SampleResolver [5]) ∧
      new Authentication.X509 sampleKey [9] = Outcome.ok (x509SampleResolver [9]) ∧
      ((x509SampleResolver [5]).key.key.public_key =
          (x509SampleResolver [9]).key.key.public_key ∧
        (x509SampleResolver [5]).key.cert.map
            (entryEmbeddedPublicKey Authentication.X509) =
          (x509SampleResolver [9]).key.cert.map
            (entryEmbeddedPublicKey Authentication.X509)) :=
  ⟨rfl, rfl, c7_pubkey_material_deterministic Authentication.X509 sampleKey
    [5] [9] (x509SampleResolver [5]) (x509SampleResolver [9]) rfl rfl⟩

/-- C8: for every constructed resolver, regardless of its mode, the
has-any-credential capability query returns true. -/
theorem c8_has_certs (r : AlwaysResolvesCert) : has_certs r = true :=
  rfl

/-- C9: construction reads the caller's secret key through a shared reference
and never writes it: threading the key buffer through the call returns it
byte-for-byte unchanged, still usable to derive the NodeIdentifier, and
the call's result is exactly that of `new`. -/
theorem c9_secret_key_unchanged (auth : Authentication) (sk rand : Bytes) :
    (new_st auth sk rand).1 = sk ∧
      nodeIdentifier (new_st auth sk rand).1 = nodeIdentifier sk ∧
      (new_st auth sk rand).2 = new auth sk rand :=
  ⟨rfl, rfl, rfl⟩

/-- C10: the raw-key construction path is fully deterministic: two runs of
`new` with the same secret key and arbitrary (possibly different) signing
randomness produce byte-identical chain entries, namely the raw public-key
bytes of the derived NodeIdentifier. -/
theorem c10_raw_chain_deterministic (sk r1 r2 : Bytes)
    (o1 o2 : AlwaysResolvesCert)
    (h1 : new Authentication.RawPublicKey sk r1 = Outcome.ok o1)
    (h2 : new Authentication.RawPublicKey sk r2 = Outcome.ok o2) :
    o1.key.cert = o2.key.cert ∧ o1.key.cert = [nodeIdentifier sk] := by
  obtain ⟨-, rfl⟩ := new_ok_elim _ sk r1 o1 h1
  obtain ⟨-, rfl⟩ := new_ok_elim _ sk r2 o2 h2
  exact ⟨rfl, rfl⟩

/-- C10 witness: byte-identical chains across two raw-key constructions with
different ambient randomness. -/
theorem c10_raw_chain_deterministic_witness :
    new Authentication.RawPublicKey sampleKey2 [1] = Outcome.ok rawSample2Resolver ∧
      new Authentication.RawPublicKey sampleKey2 [2] = Outcome.ok rawSample2Resolver ∧
      (rawSample2Resolver.key.cert = rawSample2Resolver.key.cert ∧
        rawSample2Resolver.key.cert = [nodeIdentifier sampleKey2]) :=
  ⟨rfl, rfl, c10_raw_chain_deterministic sampleKey2 [1] [2]
    rawSample2Resolver rawSample2Resolver rfl rfl⟩

end IrohTls
